/-
  Verification of the Ecommerce-fastapi repository's access-control core.

  Shallow embedding of the data model (app/models/user.py, app/models/product.py),
  the product router handlers (app/routers/products.py) and the configuration
  (app/config.py).  The authentication helpers (app/utils/security.py) and the
  auth router (app/routers/auth.py) are not part of the provided sources; where a
  claim depends on them the definitions are modelled from the specification and
  say so in their doc comment.

  Conventions of the embedding:
  - SQLAlchemy `Integer` primary keys and foreign keys become `Nat`.
  - `Float` prices become `Rat` (exact arithmetic; the claims never depend on
    floating-point rounding).
  - Nullable columns become `Option`.
  - The database table of products is a `List Product`; `query(...).first()`
    becomes `List.find?`, a committed ORM mutation becomes replacing the row
    with the matching primary key.
  - DB-managed timestamp columns (`created_at`, `updated_at`, filled by
    `func.now()` server defaults) belong to the persistence collaborator that
    the specification places out of scope and are not modelled.
  - `HTTPException(status_code, detail)` becomes the `HTTPException` structure;
    a handler that can raise returns `Except HTTPException α`.
-/
import Mathlib

namespace Ecom

/-- `app/models/user.py`: the `users` table row (timestamps omitted, see header). -/
structure User where
  id : Nat
  email : String
  hashed_password : String
  full_name : Option String
  is_active : Bool
  is_admin : Bool
deriving DecidableEq, Repr

/-- `app/models/product.py`: the `products` table row (timestamps omitted, see header). -/
structure Product where
  id : Nat
  name : String
  description : Option String
  price : Rat
  category : Option String
  stock_quantity : Int
  image_url : Option String
  is_active : Bool
  owner_id : Nat
deriving DecidableEq, Repr

/-- FastAPI's `HTTPException(status_code, detail)`. -/
structure HTTPException where
  status_code : Nat
  detail : String
deriving DecidableEq, Repr

/-- The status code of a handler outcome, `none` when the handler succeeded. -/
def errStatus {α : Type} : Except HTTPException α → Option Nat
  | .error e => some e.status_code
  | .ok _ => none

/-- `app/schemas/product.py` `ProductCreate`: the request body for product creation. -/
structure ProductCreate where
  name : String
  description : Option String
  price : Rat
  category : Option String
  stock_quantity : Int
  image_url : Option String
deriving DecidableEq, Repr

/-- `app/schemas/product.py` `ProductUpdate`: all fields optional; the outer
`Option` is pydantic set-ness (`exclude_unset`), the inner `Option` on nullable
columns is an explicitly provided null.  There is no `owner_id` field. -/
structure ProductUpdate where
  name : Option String
  description : Option (Option String)
  price : Option Rat
  category : Option (Option String)
  stock_quantity : Option Int
  image_url : Option (Option String)
  is_active : Option Bool
deriving DecidableEq, Repr

/-- The `ProductUpdate` with every field unset. -/
def ProductUpdate.empty : ProductUpdate :=
  { name := none, description := none, price := none, category := none,
    stock_quantity := none, image_url := none, is_active := none }

/-- `db.query(Product).filter(Product.id == product_id).first()`. -/
def findProduct (db : List Product) (product_id : Nat) : Option Product :=
  db.find? (fun p => p.id == product_id)

/-- Committing an ORM mutation of the row with primary key `product_id`:
the row is replaced in place, nothing is inserted or removed. -/
def commitRow (db : List Product) (product_id : Nat) (p2 : Product) : List Product :=
  db.map (fun q => if q.id == product_id then p2 else q)

/-- `update_data.items()` loop of `update_product`: `setattr` for every field
present in `model_dump(exclude_unset=True)`. -/
def applyUpdate (p : Product) (u : ProductUpdate) : Product :=
  { p with
    name := u.name.getD p.name,
    description := u.description.getD p.description,
    price := u.price.getD p.price,
    category := u.category.getD p.category,
    stock_quantity := u.stock_quantity.getD p.stock_quantity,
    image_url := u.image_url.getD p.image_url,
    is_active := u.is_active.getD p.is_active }

/-- Fresh autoincrement primary key for an insert. -/
def nextId (db : List Product) : Nat := (db.map (fun p => p.id)).foldr max 0 + 1

/-- `create_product` (app/routers/products.py lines 99-128): builds
`Product(**product_data.model_dump(), owner_id=current_user.id)` and inserts it;
`is_active` takes its column default `True`.  Requires only an authenticated
user, no ownership check; returns the new table and the created row. -/
def create_product (product_data : ProductCreate) (current_user : User)
    (db : List Product) : List Product × Product :=
  let new_product : Product :=
    { id := nextId db,
      name := product_data.name,
      description := product_data.description,
      price := product_data.price,
      category := product_data.category,
      stock_quantity := product_data.stock_quantity,
      image_url := product_data.image_url,
      is_active := true,
      owner_id := current_user.id }
  (db ++ [new_product], new_product)

/-- `get_product` (app/routers/products.py lines 81-96): single-product lookup
by id, 404 when absent; it does NOT filter on `is_active`. -/
def get_product (product_id : Nat) (db : List Product) : Except HTTPException Product :=
  match findProduct db product_id with
  | none => .error ⟨404, s!"Product with id {product_id} not found"⟩
  | some p => .ok p

/-- `if category: query.filter(Product.category == category)` — Python
truthiness: `None` and the empty string apply no filter. -/
def catFilter (category : Option String) (l : List Product) : List Product :=
  match category with
  | some c => if c.length != 0 then l.filter (fun p => p.category == some c) else l
  | none => l

/-- `if min_price is not None: query.filter(Product.price >= min_price)`. -/
def minFilter (min_price : Option Rat) (l : List Product) : List Product :=
  match min_price with
  | some m => l.filter (fun p => decide (m ≤ p.price))
  | none => l

/-- `if max_price is not None: query.filter(Product.price <= max_price)`. -/
def maxFilter (max_price : Option Rat) (l : List Product) : List Product :=
  match max_price with
  | some m => l.filter (fun p => decide (p.price ≤ m))
  | none => l

/-- `get_products` (app/routers/products.py lines 22-53): base query filters
`Product.is_active == True`, then the optional filters, then offset/limit. -/
def get_products (skip limit : Nat) (category : Option String)
    (min_price max_price : Option Rat) (db : List Product) : List Product :=
  ((maxFilter max_price (minFilter min_price (catFilter category
    (db.filter (fun p => p.is_active))))).drop skip).take limit

/-- Case-insensitive `LIKE %q%`: substring containment after lowercasing. -/
def ilike (pat s : String) : Bool :=
  decide (pat.toLower.toList <:+: s.toLower.toList)

/-- `search_products` (app/routers/products.py lines 56-78): active products
whose name or description matches `%q%` case-insensitively; a NULL description
never matches. -/
def search_products (q : String) (limit : Nat) (db : List Product) : List Product :=
  (db.filter (fun p => p.is_active &&
    (ilike q p.name ||
      (match p.description with
       | some d => ilike q d
       | none => false)))).take limit

/-- `update_product` (app/routers/products.py lines 131-169): 404 when the id
does not exist, then 403 unless the caller owns the row or is admin, then
applies exactly the provided fields and commits. -/
def update_product (product_id : Nat) (product_data : ProductUpdate)
    (current_user : User) (db : List Product) :
    Except HTTPException (List Product × Product) :=
  match findProduct db product_id with
  | none => .error ⟨404, s!"Product with id {product_id} not found"⟩
  | some product =>
    if product.owner_id != current_user.id && !current_user.is_admin then
      .error ⟨403, "Not authorized to update this product"⟩
    else
      let updated := applyUpdate product product_data
      .ok (commitRow db product_id updated, updated)

/-- `delete_product` (app/routers/products.py lines 172-204): 404 when the id
does not exist, then 403 unless owner or admin, then soft delete: only
`is_active` is set to `False`, the row stays in the table. -/
def delete_product (product_id : Nat) (current_user : User) (db : List Product) :
    Except HTTPException (List Product) :=
  match findProduct db product_id with
  | none => .error ⟨404, s!"Product with id {product_id} not found"⟩
  | some product =>
    if product.owner_id != current_user.id && !current_user.is_admin then
      .error ⟨403, "Not authorized to delete this product"⟩
    else
      .ok (commitRow db product_id { product with is_active := false })

/-- The AuthorizationGate decision written from the specification, for
comparison with the handlers: `identity.admin OR identity.id == resource.owner`. -/
def can_mutate (identity : User) (resource : Product) : Bool :=
  identity.is_admin || identity.id == resource.owner_id

/-- `app/config.py` `Settings`: the fields the auth core reads. -/
structure Settings where
  SECRET_KEY : String
  ALGORITHM : String
  ACCESS_TOKEN_EXPIRE_MINUTES : Nat
deriving DecidableEq, Repr

/-- `app/config.py` defaults: process-wide settings instance. -/
def settings : Settings :=
  { SECRET_KEY := "your-secret-key-change-in-production",
    ALGORITHM := "HS256",
    ACCESS_TOKEN_EXPIRE_MINUTES := 30 }

/-- Modelled from the spec: the symmetric signature over the canonical payload
(`app/utils/security.py` is missing from the sources).  An unforgeable MAC is
abstracted as the dependency of the tag on the secret and on every payload
component; two payloads differing in any component get different tags. -/
structure Sig where
  secret : String
  subject : String
  exp : Nat
deriving DecidableEq, Repr

/-- Modelled from the spec: recomputing the signature of a payload. -/
def mac (secret subject : String) (exp : Nat) : Sig :=
  { secret := secret, subject := subject, exp := exp }

/-- Modelled from the spec: a decoded token — subject claim, absolute expiry
instant (seconds), and signature. -/
structure Token where
  subject : String
  exp : Nat
  sig : Sig
deriving DecidableEq, Repr

/-- Modelled from the spec: a token string on the wire either parses into the
canonical structure or it does not (`MalformedToken`). -/
inductive Wire where
  | parsed (t : Token)
  | garbage (raw : String)
deriving DecidableEq, Repr

/-- The spec's token-verification error taxonomy. -/
inductive TokenError where
  | MalformedToken
  | TamperedToken
  | ExpiredToken
deriving DecidableEq, Repr

/-- Modelled from the spec (`app/utils/security.py` missing):
`issue(subject, now)` embeds the subject and `now + ttl` as the expiry and signs
with the process-wide secret; the ttl is `ACCESS_TOKEN_EXPIRE_MINUTES` minutes,
times are in seconds. -/
def issue (cfg : Settings) (subject : String) (now : Nat) : Token :=
  let exp := now + cfg.ACCESS_TOKEN_EXPIRE_MINUTES * 60
  { subject := subject, exp := exp, sig := mac cfg.SECRET_KEY subject exp }

/-- Modelled from the spec (`app/utils/security.py` missing):
`verify(token, now)` rejects an unparseable wire string as `MalformedToken`,
recomputes and compares the signature (`TamperedToken` on mismatch), and fails
with `ExpiredToken` when `now` is at or past the embedded expiry; otherwise it
returns the subject. -/
def verifyToken (cfg : Settings) (w : Wire) (now : Nat) : Except TokenError String :=
  match w with
  | .garbage _ => .error .MalformedToken
  | .parsed t =>
    if t.sig != mac cfg.SECRET_KEY t.subject t.exp then .error .TamperedToken
    else if t.exp ≤ now then .error .ExpiredToken
    else .ok t.subject

/-- Modelled from the spec: a single-bit modification of the serialized form of
token `t` either breaks the structural parse, or survives the parse having
changed exactly one component of the canonical fixed-structure payload or the
signature. -/
def FlipOf (t : Token) (w : Wire) : Prop :=
  (∃ raw, w = .garbage raw) ∨
  (∃ t2 : Token, w = .parsed t2 ∧
    ((t2.subject ≠ t.subject ∧ t2.exp = t.exp ∧ t2.sig = t.sig) ∨
     (t2.subject = t.subject ∧ t2.exp ≠ t.exp ∧ t2.sig = t.sig) ∨
     (t2.subject = t.subject ∧ t2.exp = t.exp ∧ t2.sig ≠ t.sig)))

/-- Modelled from the spec: the `Authorization` header of an inbound request —
absent, present with a scheme other than `Bearer`, or a bearer token. -/
inductive AuthHeader where
  | missing
  | wrongScheme (raw : String)
  | bearer (w : Wire)
deriving DecidableEq, Repr

/-- Modelled from the spec: the one external unauthenticated (401-class) signal
every identity-resolution failure maps to. -/
def credentials_exception : HTTPException :=
  { status_code := 401, detail := "Could not validate credentials" }

/-- Modelled from the spec (`app/utils/security.py` `get_current_user` missing):
the IdentityResolver extracts a bearer token (absence or wrong scheme rejects),
delegates to token verification, looks the subject up by email, rejects unknown
or inactive accounts; every failure is converted to `credentials_exception`. -/
def get_current_user (cfg : Settings) (hdr : AuthHeader) (now : Nat)
    (users : List User) : Except HTTPException User :=
  match hdr with
  | .missing => .error credentials_exception
  | .wrongScheme _ => .error credentials_exception
  | .bearer w =>
    match verifyToken cfg w now with
    | .error _ => .error credentials_exception
    | .ok subject =>
      match users.find? (fun u => u.email == subject) with
      | none => .error credentials_exception
      | some u =>
        if u.is_active then .ok u else .error credentials_exception

/-- Modelled from the spec: the PasswordHasher's fixed length cap on plaintext
input (resource-exhaustion protection; the spec fixes no number). -/
def MAX_PASSWORD_LENGTH : Nat := 1024

/-- The PasswordHasher failure cases of the spec. -/
inductive HashError where
  | emptyPassword
  | oversizedPassword
deriving DecidableEq, Repr

/-- Modelled from the spec: a salted digest.  The salt is stored beside the
body; the one-way function is abstracted as the dependency of the body on the
salt and the plaintext (collision-free by construction). -/
structure Digest where
  salt : Nat
  body : Nat × String
deriving DecidableEq, Repr

/-- Modelled from the spec (`app/utils/security.py` missing): `hash(plaintext)`
with the per-call fresh salt made an explicit argument; rejects exactly the
empty string and input above the fixed length cap. -/
def hash_password (salt : Nat) (p : String) : Except HashError Digest :=
  if p.length = 0 then .error .emptyPassword
  else if MAX_PASSWORD_LENGTH < p.length then .error .oversizedPassword
  else .ok { salt := salt, body := (salt, p) }

/-- Modelled from the spec (`app/utils/security.py` missing):
`verify(plaintext, digest)` recomputes the body from the digest's salt and the
presented plaintext and compares. -/
def verify_password (p : String) (d : Digest) : Bool :=
  d.body == (d.salt, p)

/-- Registration failure taxonomy of the spec's persistence collaborator. -/
inductive RegError where
  | uniquenessViolation
deriving DecidableEq, Repr

/-- Modelled from the spec (`app/routers/auth.py` missing; the DB constraint is
`app/models/user.py` `email = Column(..., unique=True)`):
`insert_account(Account)` fails with a uniqueness-violation kind when the email
is already in use, otherwise appends the account. -/
def insert_account (db : List User) (u : User) : Except RegError (List User) :=
  if db.any (fun a => a.email == u.email) then .error .uniquenessViolation
  else .ok (db ++ [u])

/-- The users table after a registration attempt: unchanged when the insert
failed. -/
def register_state (db : List User) (u : User) : List User :=
  match insert_account db u with
  | .error _ => db
  | .ok db2 => db2

/-- Email uniqueness of the users table (`app/models/user.py` unique index). -/
def emailsNodup (db : List User) : Prop :=
  (db.map (fun a => a.email)).Nodup

/-- Whether a hashing attempt succeeded. -/
def hashOk (salt : Nat) (p : String) : Bool :=
  match hash_password salt p with
  | .ok _ => true
  | .error _ => false

/- Concrete sample data for the witnesses. -/

/-- Sample account, owner of `prodA`. -/
def alice : User :=
  { id := 1, email := "a@x.com", hashed_password := "h1", full_name := none,
    is_active := true, is_admin := false }

/-- Sample non-admin account that does not own `prodA`. -/
def bob : User :=
  { id := 2, email := "b@x.com", hashed_password := "h2", full_name := none,
    is_active := true, is_admin := false }

/-- Sample account sharing `alice`'s email (a duplicate registration attempt). -/
def alice2 : User :=
  { id := 3, email := "a@x.com", hashed_password := "h3", full_name := none,
    is_active := true, is_admin := false }

/-- Sample product owned by `alice`. -/
def prodA : Product :=
  { id := 1, name := "Widget", description := none, price := 10, category := none,
    stock_quantity := 0, image_url := none, is_active := true, owner_id := 1 }

/-- Sample creation payload. -/
def pcA : ProductCreate :=
  { name := "Widget", description := none, price := 10, category := none,
    stock_quantity := 0, image_url := none }

/- Helper lemmas. -/

/-- The handlers' 403 condition is the negation of the spec's `can_mutate`. -/
theorem forbidden_cond (cu : User) (p : Product) :
    (p.owner_id != cu.id && !cu.is_admin) = !(can_mutate cu p) := by
  by_cases h : cu.id = p.owner_id <;>
    cases hadm : cu.is_admin <;>
      simp [can_mutate, h, hadm, bne, Ne.symm]

/-- Replacing the found row leaves it the row found afterwards. -/
theorem findProduct_commitRow (db : List Product) (pid : Nat) (p p2 : Product)
    (hf : findProduct db pid = some p) (hid : p2.id = p.id) :
    findProduct (commitRow db pid p2) pid = some p2 := by
  induction db with
  | nil => simp [findProduct] at hf
  | cons q rest ih =>
    by_cases hq : q.id = pid
    · have hqp : q = p := by
        simpa [findProduct, beq_iff_eq, hq] using hf
      have hq2 : p2.id = pid := by rw [hid, ← hqp]; exact hq
      simp [findProduct, commitRow, beq_iff_eq, hq, hq2]
    · have hf2 : findProduct rest pid = some p := by
        simpa [findProduct, beq_iff_eq, hq] using hf
      simpa [findProduct, commitRow, beq_iff_eq, hq] using ih hf2

/-- Every product returned by the list endpoint is active. -/
theorem get_products_active (skip limit : Nat) (c : Option String)
    (mn mx : Option Rat) (db : List Product) (q : Product)
    (h : q ∈ get_products skip limit c mn mx db) : q.is_active = true := by
  unfold get_products at h
  have h1 := List.drop_subset _ _ (List.take_subset _ _ h)
  have h2 : q ∈ minFilter mn (catFilter c (db.filter (fun p => p.is_active))) := by
    cases mx <;> simp [maxFilter] at h1 <;> tauto
  have h3 : q ∈ catFilter c (db.filter (fun p => p.is_active)) := by
    cases mn <;> simp [minFilter] at h2 <;> tauto
  have h4 : q ∈ db.filter (fun p => p.is_active) := by
    cases c with
    | none => exact h3
    | some s =>
      simp only [catFilter] at h3
      split at h3
      · exact (List.mem_filter.mp h3).1
      · exact h3
  exact (List.mem_filter.mp h4).2

/-- Every product returned by the search endpoint is active. -/
theorem search_products_active (qs : String) (limit : Nat) (db : List Product)
    (q : Product) (h : q ∈ search_products qs limit db) : q.is_active = true := by
  unfold search_products at h
  have h1 := List.take_subset _ _ h
  have := (List.mem_filter.mp h1).2
  exact (Bool.and_eq_true ..).mp this |>.1

/-- C1: for every authenticated identity and every existing resource,
`can_mutate(identity, resource)` is true iff the identity is admin or its id
equals the resource's owner, false otherwise, and the update and delete
handlers reject with Forbidden (403) exactly when it is false. -/
theorem can_mutate_governs_mutation
    (pid : Nat) (u : ProductUpdate) (cu : User) (db : List Product) (p : Product)
    (hfind : findProduct db pid = some p) :
    (can_mutate cu p = true ↔ (cu.is_admin = true ∨ cu.id = p.owner_id)) ∧
    (errStatus (update_product pid u cu db) = some 403 ↔ can_mutate cu p = false) ∧
    (errStatus (delete_product pid cu db) = some 403 ↔ can_mutate cu p = false) := by
  refine ⟨by simp [can_mutate, beq_iff_eq], ?_, ?_⟩
  · simp only [update_product, hfind, forbidden_cond]
    cases hcm : can_mutate cu p <;> simp [errStatus]
  · simp only [delete_product, hfind, forbidden_cond]
    cases hcm : can_mutate cu p <;> simp [errStatus]

/-- Witness for C1 at a concrete input: `bob` neither owns `prodA` nor is
admin, so both mutation handlers answer 403 exactly as `can_mutate` says. -/
theorem can_mutate_governs_mutation_witness :
    (can_mutate bob prodA = true ↔ (bob.is_admin = true ∨ bob.id = prodA.owner_id)) ∧
    (errStatus (update_product 1 ProductUpdate.empty bob [prodA]) = some 403 ↔
      can_mutate bob prodA = false) ∧
    (errStatus (delete_product 1 bob [prodA]) = some 403 ↔
      can_mutate bob prodA = false) :=
  can_mutate_governs_mutation 1 ProductUpdate.empty bob [prodA] prodA (by rfl)

/-- C4: a nonexistent resource id yields NotFound (404) for every caller on
both update and delete, and a Forbidden (403) outcome implies the resource
exists — existence is checked before ownership. -/
theorem existence_checked_before_ownership
    (pid : Nat) (u : ProductUpdate) (cu : User) (db : List Product) :
    (findProduct db pid = none →
      errStatus (update_product pid u cu db) = some 404 ∧
      errStatus (delete_product pid cu db) = some 404) ∧
    (errStatus (update_product pid u cu db) = some 403 →
      (findProduct db pid).isSome = true) ∧
    (errStatus (delete_product pid cu db) = some 403 →
      (findProduct db pid).isSome = true) := by
  cases hf : findProduct db pid with
  | none =>
    refine ⟨fun _ => ?_, fun h => ?_, fun h => ?_⟩
    · simp [update_product, delete_product, hf, errStatus]
    · simp [update_product, hf, errStatus] at h
    · simp [delete_product, hf, errStatus] at h
  | some p =>
    exact ⟨fun h => by simp at h, fun _ => by simp [hf], fun _ => by simp [hf]⟩

/-- Witness for C4 at concrete inputs: an empty table answers 404 to both
handlers, and a 403 answer entails the row exists. -/
theorem existence_checked_before_ownership_witness :
    (errStatus (update_product 1 ProductUpdate.empty bob []) = some 404 ∧
     errStatus (delete_product 1 bob []) = some 404) ∧
    (findProduct [prodA] 1).isSome = true :=
  ⟨(existence_checked_before_ownership 1 ProductUpdate.empty bob []).1 rfl,
   (existence_checked_before_ownership 1 ProductUpdate.empty bob [prodA]).2.1 (by rfl)⟩

/-- C7: the owner attribute is set at creation to the creating identity's id
(creation never checks ownership — `create_product` is total on any
authenticated user); a successful update leaves the owner, the id, and every
field not explicitly provided unchanged. -/
theorem owner_set_once_update_frame
    (pd : ProductCreate) (cu : User) (db : List Product)
    (pid : Nat) (u : ProductUpdate) (cu2 : User) (db2 : List Product)
    (newdb : List Product) (updated : Product)
    (hupd : update_product pid u cu2 db2 = .ok (newdb, updated)) :
    ((create_product pd cu db).2.owner_id = cu.id) ∧
    ∃ p, findProduct db2 pid = some p ∧
      updated.owner_id = p.owner_id ∧
      updated.id = p.id ∧
      (u.name = none → updated.name = p.name) ∧
      (u.description = none → updated.description = p.description) ∧
      (u.price = none → updated.price = p.price) ∧
      (u.category = none → updated.category = p.category) ∧
      (u.stock_quantity = none → updated.stock_quantity = p.stock_quantity) ∧
      (u.image_url = none → updated.image_url = p.image_url) ∧
      (u.is_active = none → updated.is_active = p.is_active) := by
  refine ⟨rfl, ?_⟩
  cases hf : findProduct db2 pid with
  | none => simp [update_product, hf] at hupd
  | some p =>
    refine ⟨p, rfl, ?_⟩
    have hup : updated = applyUpdate p u := by
      simp only [update_product, hf] at hupd
      split at hupd
      · exact absurd hupd (by simp)
      · simp only [Except.ok.injEq, Prod.mk.injEq] at hupd
        exact hupd.2.symm
    subst hup
    refine ⟨rfl, rfl, ?_, ?_, ?_, ?_, ?_, ?_, ?_⟩ <;>
      (intro h; simp [applyUpdate, h])

/-- Witness for C7 at a concrete input: `alice` creates and then successfully
updates her product with an empty update; owner and all fields survive. -/
theorem owner_set_once_update_frame_witness :
    ((create_product pcA alice []).2.owner_id = alice.id) ∧
    ∃ p, findProduct [prodA] 1 = some p ∧
      prodA.owner_id = p.owner_id ∧
      prodA.id = p.id ∧
      (ProductUpdate.empty.name = none → prodA.name = p.name) ∧
      (ProductUpdate.empty.description = none → prodA.description = p.description) ∧
      (ProductUpdate.empty.price = none → prodA.price = p.price) ∧
      (ProductUpdate.empty.category = none → prodA.category = p.category) ∧
      (ProductUpdate.empty.stock_quantity = none → prodA.stock_quantity = p.stock_quantity) ∧
      (ProductUpdate.empty.image_url = none → prodA.image_url = p.image_url) ∧
      (ProductUpdate.empty.is_active = none → prodA.is_active = p.is_active) :=
  owner_set_once_update_frame pcA alice [] 1 ProductUpdate.empty alice [prodA]
    [prodA] prodA (by rfl)

/-- C10: delete is a soft delete — the committed row is the found row with only
`is_active` set to false, nothing is removed from the table, GET by id still
returns the row (no `is_active` filter there), while the soft-deleted row no
longer appears in the list or search results, which keep only active rows. -/
theorem delete_is_soft_delete
    (pid : Nat) (cu : User) (db : List Product) (p : Product) (db2 : List Product)
    (skip limit : Nat) (cat : Option String) (mn mx : Option Rat)
    (qs : String) (slimit : Nat)
    (hfind : findProduct db pid = some p)
    (hdel : delete_product pid cu db = .ok db2) :
    db2 = commitRow db pid { p with is_active := false } ∧
    db2.length = db.length ∧
    get_product pid db2 = .ok { p with is_active := false } ∧
    ({ p with is_active := false }).is_active = false ∧
    ({ p with is_active := false }).id = p.id ∧
    ({ p with is_active := false }).name = p.name ∧
    ({ p with is_active := false }).description = p.description ∧
    ({ p with is_active := false }).price = p.price ∧
    ({ p with is_active := false }).category = p.category ∧
    ({ p with is_active := false }).stock_quantity = p.stock_quantity ∧
    ({ p with is_active := false }).image_url = p.image_url ∧
    ({ p with is_active := false }).owner_id = p.owner_id ∧
    { p with is_active := false } ∉ get_products skip limit cat mn mx db2 ∧
    { p with is_active := false } ∉ search_products qs slimit db2 := by
  have hdb2 : db2 = commitRow db pid { p with is_active := false } := by
    simp only [delete_product, hfind] at hdel
    split at hdel
    · exact absurd hdel (by simp)
    · simp only [Except.ok.injEq] at hdel
      exact hdel.symm
  refine ⟨hdb2, ?_, ?_, rfl, rfl, rfl, rfl, rfl, rfl, rfl, rfl, rfl, ?_, ?_⟩
  · rw [hdb2]; exact (List.length_map ..)
  · rw [hdb2]
    unfold get_product
    rw [findProduct_commitRow db pid p { p with is_active := false } hfind rfl]
  · intro hmem
    have := get_products_active skip limit cat mn mx db2 _ hmem
    simp at this
  · intro hmem
    have := search_products_active qs slimit db2 _ hmem
    simp at this

/-- Witness for C10 at a concrete input: `alice` soft-deletes her own product. -/
theorem delete_is_soft_delete_witness :
    [{ prodA with is_active := false }] =
      commitRow [prodA] 1 { prodA with is_active := false } ∧
    ([{ prodA with is_active := false }] : List Product).length = ([prodA] : List Product).length ∧
    get_product 1 [{ prodA with is_active := false }] = .ok { prodA with is_active := false } ∧
    ({ prodA with is_active := false }).is_active = false ∧
    ({ prodA with is_active := false }).id = prodA.id ∧
    ({ prodA with is_active := false }).name = prodA.name ∧
    ({ prodA with is_active := false }).description = prodA.description ∧
    ({ prodA with is_active := false }).price = prodA.price ∧
    ({ prodA with is_active := false }).category = prodA.category ∧
    ({ prodA with is_active := false }).stock_quantity = prodA.stock_quantity ∧
    ({ prodA with is_active := false }).image_url = prodA.image_url ∧
    ({ prodA with is_active := false }).owner_id = prodA.owner_id ∧
    { prodA with is_active := false } ∉ get_products 0 10 none none none [{ prodA with is_active := false }] ∧
    { prodA with is_active := false } ∉ search_products "Widget" 10 [{ prodA with is_active := false }] :=
  delete_is_soft_delete 1 alice [prodA] prodA [{ prodA with is_active := false }]
    0 10 none none none "Widget" 10 (by rfl) (by rfl)

/-- C2: a token issued at `t` with the configured ttl `T` minutes verifies
successfully (returning the subject) at any check time in `[t, t+T)` and fails
with `ExpiredToken` at any check time at or past `t+T` (times in seconds). -/
theorem token_ttl_window (cfg : Settings) (subject : String) (t now : Nat)
    (hlo : t ≤ now) :
    (now < t + cfg.ACCESS_TOKEN_EXPIRE_MINUTES * 60 →
      verifyToken cfg (.parsed (issue cfg subject t)) now = .ok subject) ∧
    (t + cfg.ACCESS_TOKEN_EXPIRE_MINUTES * 60 ≤ now →
      verifyToken cfg (.parsed (issue cfg subject t)) now = .error .ExpiredToken) := by
  constructor
  · intro hhi
    simp [verifyToken, issue, mac, Nat.not_le_of_lt hhi]
  · intro hhi
    simp [verifyToken, issue, mac, hhi]

/-- Witness for C2 with the repository's default settings (ttl 30 minutes):
a token issued at 0 is accepted at 5 seconds and expired at 1800 seconds. -/
theorem token_ttl_window_witness :
    (verifyToken settings (.parsed (issue settings "a@x.com" 0)) 5 =
      .ok "a@x.com") ∧
    (verifyToken settings (.parsed (issue settings "a@x.com" 0)) 1800 =
      .error .ExpiredToken) :=
  ⟨(token_ttl_window settings "a@x.com" 0 5 (by decide)).1 (by decide),
   (token_ttl_window settings "a@x.com" 0 1800 (by decide)).2 (by decide)⟩

/-- C3: any single-bit modification of a valid token — one that breaks the
structural parse or changes exactly one component of payload or signature —
makes `verify` fail with `TamperedToken` or `MalformedToken`; no such
modification verifies to a subject. -/
theorem single_bit_flip_rejected (cfg : Settings) (subject : String) (t now : Nat)
    (w : Wire) (hflip : FlipOf (issue cfg subject t) w) :
    verifyToken cfg w now = .error .TamperedToken ∨
    verifyToken cfg w now = .error .MalformedToken := by
  rcases hflip with ⟨raw, hw⟩ | ⟨t2, hw, hcase⟩
  · right; rw [hw]; rfl
  · left
    rw [hw]
    have hsig : t2.sig ≠ mac cfg.SECRET_KEY t2.subject t2.exp := by
      intro hbad
      rcases hcase with ⟨hs, he, hg⟩ | ⟨hs, he, hg⟩ | ⟨hs, he, hg⟩ <;>
        simp only [issue, mac] at hs he hg hbad
      · rw [hg, Sig.mk.injEq] at hbad
        exact hs hbad.2.1.symm
      · rw [hg, Sig.mk.injEq] at hbad
        exact he hbad.2.2.symm
      · rw [hs, he] at hbad
        exact hg hbad
    have hb : (t2.sig != mac cfg.SECRET_KEY t2.subject t2.exp) = true :=
      bne_iff_ne.mpr hsig
    simp [verifyToken, hb]

/-- Witness for C3 at a concrete input: bumping the expiry component of a
token issued at 0 under the default settings is rejected. -/
theorem single_bit_flip_rejected_witness :
    verifyToken settings
      (.parsed { subject := "a@x.com", exp := 1801,
                 sig := (issue settings "a@x.com" 0).sig }) 5 =
      .error .TamperedToken ∨
    verifyToken settings
      (.parsed { subject := "a@x.com", exp := 1801,
                 sig := (issue settings "a@x.com" 0).sig }) 5 =
      .error .MalformedToken :=
  single_bit_flip_rejected settings "a@x.com" 0 5
    (.parsed { subject := "a@x.com", exp := 1801,
               sig := (issue settings "a@x.com" 0).sig })
    (Or.inr ⟨_, rfl, Or.inr (Or.inl ⟨rfl, by decide, rfl⟩)⟩)

/-- C5: every identity-resolution outcome is either a resolved account or the
one fixed unauthenticated (401) signal `credentials_exception` — no wire-level
distinction between missing/malformed header, token failure, unknown subject
and deactivated account — and that signal differs from every 403 signal. -/
theorem resolver_single_unauthenticated_signal (cfg : Settings)
    (hdr : AuthHeader) (now : Nat) (users : List User) :
    ((∃ u, get_current_user cfg hdr now users = .ok u) ∨
      get_current_user cfg hdr now users = .error credentials_exception) ∧
    credentials_exception.status_code = 401 ∧
    (∀ d, credentials_exception ≠ HTTPException.mk 403 d) := by
  refine ⟨?_, rfl, fun d h => by simp [credentials_exception] at h⟩
  cases hdr with
  | missing => exact Or.inr rfl
  | wrongScheme raw => exact Or.inr rfl
  | bearer w =>
    cases hv : verifyToken cfg w now with
    | error e => simp [get_current_user, hv]
    | ok s =>
      cases hu : users.find? (fun u => u.email == s) with
      | none => simp [get_current_user, hv, hu]
      | some u =>
        cases ha : u.is_active
        · simp [get_current_user, hv, hu, ha]
        · exact Or.inl ⟨u, by simp [get_current_user, hv, hu, ha]⟩

/-- C6: for every accepted plaintext, hashing succeeds and the digest verifies
against the plaintext; two calls with distinct fresh salts produce distinct
digests, each of which still verifies. -/
theorem salted_hash_roundtrip (p : String) (s1 s2 : Nat)
    (hne : p.length ≠ 0) (hle : p.length ≤ MAX_PASSWORD_LENGTH) (hs : s1 ≠ s2) :
    ((hash_password s1 p).toOption.map (verify_password p) = some true) ∧
    ((hash_password s2 p).toOption.map (verify_password p) = some true) ∧
    hash_password s1 p ≠ hash_password s2 p := by
  have hnot : ¬ MAX_PASSWORD_LENGTH < p.length := Nat.not_lt_of_le hle
  refine ⟨?_, ?_, ?_⟩
  · simp [hash_password, hne, hnot, verify_password, Except.toOption]
  · simp [hash_password, hne, hnot, verify_password, Except.toOption]
  · simp [hash_password, hne, hnot, Digest.mk.injEq]
    intro h
    exact absurd h hs

/-- Witness for C6 at a concrete input: the plaintext of the spec's scenario
hashed under two distinct salts. -/
theorem salted_hash_roundtrip_witness :
    ((hash_password 0 "longenough1").toOption.map (verify_password "longenough1") =
      some true) ∧
    ((hash_password 1 "longenough1").toOption.map (verify_password "longenough1") =
      some true) ∧
    hash_password 0 "longenough1" ≠ hash_password 1 "longenough1" :=
  salted_hash_roundtrip "longenough1" 0 1 (by decide) (by decide) (by decide)

/-- C8: the hash operation fails exactly on the empty string (emptyPassword)
or on input longer than the fixed cap (oversizedPassword), and succeeds on
every other plaintext — no non-empty input below the cap is rejected. -/
theorem hash_fails_only_empty_or_oversized (salt : Nat) (p : String) :
    (hash_password salt p = .error .emptyPassword ↔ p.length = 0) ∧
    (hash_password salt p = .error .oversizedPassword ↔
      (p.length ≠ 0 ∧ MAX_PASSWORD_LENGTH < p.length)) ∧
    (hashOk salt p = true ↔ (p.length ≠ 0 ∧ p.length ≤ MAX_PASSWORD_LENGTH)) := by
  by_cases h0 : p.length = 0
  · simp [hash_password, hashOk, h0]
  · by_cases h1 : MAX_PASSWORD_LENGTH < p.length
    · simp [hash_password, hashOk, h0, h1, Nat.not_le_of_lt h1]
    · simp [hash_password, hashOk, h0, h1, Nat.le_of_not_lt h1]

/-- C9: registering an account whose email is already in use fails with the
uniqueness-violation kind and leaves the stored accounts unchanged; the
per-email uniqueness invariant is preserved by every registration. -/
theorem duplicate_email_registration_rejected (db : List User) (u : User) :
    ((∃ a, a ∈ db ∧ a.email = u.email) →
      insert_account db u = .error .uniquenessViolation ∧
      register_state db u = db) ∧
    (emailsNodup db → emailsNodup (register_state db u)) := by
  constructor
  · rintro ⟨a, hmem, hmail⟩
    have hany : db.any (fun a => a.email == u.email) = true := by
      simp only [List.any_eq_true]
      exact ⟨a, hmem, by simp [hmail]⟩
    constructor
    · simp [insert_account, hany]
    · simp [register_state, insert_account, hany]
  · intro hnd
    by_cases hany : db.any (fun a => a.email == u.email) = true
    · simpa [register_state, insert_account, hany] using hnd
    · have hnotin : u.email ∉ db.map (fun a => a.email) := by
        intro hin
        rcases List.mem_map.mp hin with ⟨a, hmem, hmail⟩
        exact hany (by
          simp only [List.any_eq_true]
          exact ⟨a, hmem, by simp [hmail]⟩)
      have : register_state db u = db ++ [u] := by
        simp [register_state, insert_account, hany]
      rw [this]
      unfold emailsNodup at hnd ⊢
      rw [List.map_append]
      rw [List.nodup_append]
      exact ⟨hnd, List.nodup_singleton _, by
        intro x hx hx2
        simp only [List.map_cons, List.map_nil, List.mem_singleton] at hx2
        exact hnotin (hx2 ▸ hx)⟩

/-- Witness for C9 at a concrete input: re-registering `alice`'s email fails
with the uniqueness-violation kind, the table is unchanged and stays
duplicate-free. -/
theorem duplicate_email_registration_rejected_witness :
    (insert_account [alice] alice2 = .error .uniquenessViolation ∧
      register_state [alice] alice2 = [alice]) ∧
    emailsNodup (register_state [alice] alice2) :=
  ⟨(duplicate_email_registration_rejected [alice] alice2).1
      ⟨alice, by simp, rfl⟩,
   (duplicate_email_registration_rejected [alice] alice2).2
      (by simp [emailsNodup])⟩

end Ecom
